import Mathlib

/-!
Shallow embedding of the session/resource coordination layer of the
`webrtc-node` conferencing server (`server.js`) and its browser client
(`public/client.js`): the recyclable slot pools, the room registry and
media-resource directory with their delta broadcasts, the client-side
session replicator / consumption pipeline, and the arrangement engine.

JavaScript `Map`s are modelled as association lists in insertion order
(`Map.set` replaces in place or appends; `Map.delete` filters; `forEach`
visits in insertion order).  Broadcasts are modelled as an explicit list
of emitted events, each tagged with its recipient set.
-/

namespace Shashlichka

/-! ## SlotAllocator (`server.js` lines 64-85)

Two independent recyclable integer-index pools.  `getNextUserIndex` /
`getNextPresentationIndex` shift the head of the free array;
`releaseUserIndex` / `releasePresentationIndex` push the index back
(guarded by `0 <= i < N`; the `>= 0` and `!== null` parts of the guard
are vacuous for `Nat` indices) and re-sort ascending.  Both pools use
the same code shape, embedded once, parameterised by the bound `N`. -/

/-- `availableIndexes.length > 0 ? availableIndexes.shift() : null` —
returns the head of the free list (if any) together with the rest. -/
def getNextIndex (pool : List Nat) : Option Nat × List Nat :=
  match pool with
  | [] => (none, [])
  | i :: rest => (some i, rest)

/-- `push(i); sort((a, b) => a - b)` under the guard `i < N`
(JS guard: `i !== null && i >= 0 && i < MAX`). -/
def releaseIndex (N : Nat) (pool : List Nat) (i : Nat) : List Nat :=
  if i < N then List.insertionSort (· ≤ ·) (pool ++ [i]) else pool

/-- Pool states reachable from the initial full range `[0..N)` by any
interleaving of acquires and releases. -/
inductive PoolReachable (N : Nat) : List Nat → Prop
  | init : PoolReachable N (List.range N)
  | acquire {p : List Nat} : PoolReachable N p → PoolReachable N (getNextIndex p).2
  | release {p : List Nat} (i : Nat) : PoolReachable N p → PoolReachable N (releaseIndex N p i)

end Shashlichka

namespace Shashlichka

/-- helper: a sorted list's head is a lower bound for all its members. -/
theorem head_le_of_sorted {m : Nat} {rest : List Nat}
    (hs : List.Sorted (· ≤ ·) (m :: rest)) : ∀ j ∈ m :: rest, m ≤ j := by
  intro j hj
  rcases List.mem_cons.mp hj with h | h
  · exact h ▸ le_refl m
  · exact List.rel_of_sorted_cons hs j h

/-- helper: every reachable pool state is sorted ascending. -/
theorem poolReachable_sorted {N : Nat} {p : List Nat}
    (hp : PoolReachable N p) : List.Sorted (· ≤ ·) p := by
  induction hp with
  | init => exact List.sorted_le_range N
  | acquire hp ih =>
    rename_i q
    cases q with
    | nil => simp [getNextIndex]
    | cons a rest =>
      simp only [getNextIndex]
      exact ih.of_cons
  | release i hp ih =>
    rename_i q
    unfold releaseIndex
    split
    · exact List.sorted_insertionSort (· ≤ ·) (q ++ [i])
    · exact ih

/-- C2: for every reachable pool state, `release(i)` re-inserts `i`
keeping the free list sorted ascending; the next `acquire()` returns the
smallest free index; and when `i` is a lower bound of the current free
list (in particular when it is the current minimum), `release(i)`
immediately followed by `acquire()` returns `i`. -/
theorem release_keeps_sorted_acquire_returns_min
    (N : Nat) (p : List Nat) (hp : PoolReachable N p) (i : Nat) (hi : i < N) :
    List.Sorted (· ≤ ·) (releaseIndex N p i) ∧
    (∀ m rest, getNextIndex (releaseIndex N p i) = (some m, rest) →
      ∀ j ∈ releaseIndex N p i, m ≤ j) ∧
    ((∀ j ∈ p, i ≤ j) → (getNextIndex (releaseIndex N p i)).1 = some i) := by
  have hrel : releaseIndex N p i = List.insertionSort (· ≤ ·) (p ++ [i]) := by
    unfold releaseIndex; simp [hi]
  have hsorted : List.Sorted (· ≤ ·) (releaseIndex N p i) := by
    rw [hrel]; exact List.sorted_insertionSort (· ≤ ·) (p ++ [i])
  refine ⟨hsorted, ?_, ?_⟩
  · intro m rest hnext j hj
    cases hq : releaseIndex N p i with
    | nil => simp [hq] at hj
    | cons a tail =>
      have ham : a = m := by
        simp [getNextIndex, hq] at hnext
        exact hnext.1
      have hs' := hq ▸ hsorted
      exact ham ▸ head_le_of_sorted hs' j (hq ▸ hj)
  · intro hmin
    have hperm : List.Perm (releaseIndex N p i) (p ++ [i]) := by
      rw [hrel]; exact List.perm_insertionSort (· ≤ ·) (p ++ [i])
    have himem : i ∈ releaseIndex N p i :=
      hperm.mem_iff.mpr (by simp)
    have hlow : ∀ j ∈ releaseIndex N p i, i ≤ j := by
      intro j hj
      rcases List.mem_append.mp (hperm.mem_iff.mp hj) with h | h
      · exact hmin j h
      · simp at h; omega
    cases hq : releaseIndex N p i with
    | nil => rw [hq] at himem; simp at himem
    | cons a tail =>
      have h1 : i ≤ a := hlow a (by rw [hq]; simp)
      have h2 : a ≤ i := head_le_of_sorted (hq ▸ hsorted) i (hq ▸ himem)
      have : a = i := le_antisymm h2 h1
      simp [getNextIndex, hq, this]

/-- Witness for C2: in the pool `[1, 2]` (reachable with `N = 3` by
acquiring index 0 from the initial range), releasing index 0 — the
minimum free index — keeps the list sorted and makes the next acquire
return 0. -/
theorem release_keeps_sorted_acquire_returns_min_witness :
    List.Sorted (· ≤ ·) (releaseIndex 3 [1, 2] 0) ∧
    (∀ m rest, getNextIndex (releaseIndex 3 [1, 2] 0) = (some m, rest) →
      ∀ j ∈ releaseIndex 3 [1, 2] 0, m ≤ j) ∧
    ((∀ j ∈ [1, 2], 0 ≤ j) → (getNextIndex (releaseIndex 3 [1, 2] 0)).1 = some 0) := by
  have hreach : PoolReachable 3 [1, 2] := by
    have h0 : PoolReachable 3 (List.range 3) := PoolReachable.init
    have h1 : PoolReachable 3 (getNextIndex (List.range 3)).2 := PoolReachable.acquire h0
    have : (getNextIndex (List.range 3)).2 = [1, 2] := by decide
    exact this ▸ h1
  exact release_keeps_sorted_acquire_returns_min 3 [1, 2] hreach 0 (by decide)

end Shashlichka

namespace Shashlichka

/-! ## Server room state (`server.js` lines 36-212)

`RoomState` holds the users map, the two free-index pools, and the
resource directory (transports, producers, screenProducers). -/

/-- `users` map value: `{ id, name, videoEnabled, audioEnabled, userIndex }`. -/
structure UserState where
  id : String
  name : String
  videoEnabled : Bool
  audioEnabled : Bool
  userIndex : Nat
deriving DecidableEq, Repr

/-- `transports` map value: `{ transport, socketId, direction }` (the
mediasoup transport object itself lives in the external media engine). -/
structure TransportData where
  socketId : String
  direction : String
deriving DecidableEq, Repr

/-- `producers` map value:
`{ producer, socketId, kind, source, presentationIndex }`. -/
structure ProducerData where
  socketId : String
  kind : String
  source : String
  presentationIndex : Option Nat
deriving DecidableEq, Repr

/-- The centralized `RoomState` object. -/
structure RoomState where
  users : List (String × UserState)
  availableIndexes : List Nat
  transports : List (String × TransportData)
  producers : List (String × ProducerData)
  screenProducers : List String
  availablePresentationIndexes : List Nat
  maxUsers : Nat
  maxScreenShares : Nat
deriving DecidableEq, Repr

/-- `Map.set`: replace in place if the key exists, else append. -/
def mapSet {β : Type} (m : List (String × β)) (k : String) (v : β) :
    List (String × β) :=
  if (m.lookup k).isSome then
    m.map (fun kv => if kv.1 = k then (k, v) else kv)
  else m ++ [(k, v)]

/-- Recipient set of one emitted socket.io event:
`io.emit` → `all`; `socket.broadcast.emit` / `io.except(sid).emit` →
`exceptOne sid`; `socket.emit` → `only sid`. -/
inductive Recipients
  | all
  | exceptOne (socketId : String)
  | only (socketId : String)
deriving DecidableEq, Repr

/-- Payloads of the server's broadcast events. -/
inductive Payload
  | roomFull
  | initSnapshot (userIndex : Nat) (currentUsers : List (String × UserState))
      (currentProducers : List (String × ProducerData))
  | userJoined (socketId name : String) (userIndex : Nat)
      (videoEnabled audioEnabled : Bool)
  | userUpdated (socketId name : String) (videoEnabled audioEnabled : Bool)
      (userIndex : Nat)
  | userLeft (socketId : String)
  | newProducer (id socketId kind source peerName : String) (userIndex : Nat)
  | newPresentation (id socketId kind peerName : String) (presentationIndex : Nat)
  | presentationEnded (producerId : String)
  | roomStatus (userCount maxUsers screenShareCount : Nat)
deriving DecidableEq, Repr

/-- One emitted event: recipients plus payload. -/
abbrev Emit := Recipients × Payload

/-- `isRoomFull()`: `users.size >= MAX_USERS`. -/
def isRoomFull (st : RoomState) : Bool :=
  st.users.length ≥ st.maxUsers

/-- `getScreenShareCount()`: `screenProducers.size`. -/
def getScreenShareCount (st : RoomState) : Nat :=
  st.screenProducers.length

/-- `getUserBySocketId(socketId)`. -/
def getUserBySocketId (st : RoomState) (socketId : String) : Option UserState :=
  st.users.lookup socketId

/-- `getAllUsers(excludeSocketId)`: every users entry except the excluded
one (kept as key/value pairs, the fields the JS object literal copies). -/
def getAllUsers (st : RoomState) (excludeSocketId : Option String) :
    List (String × UserState) :=
  st.users.filter (fun kv => some kv.1 ≠ excludeSocketId)

/-- `removeUserScreenShares(socketId)`: for each screen producer owned by
`socketId`, release its presentation index and delete it from both
`producers` and `screenProducers`; returns the removed producer ids. -/
def removeUserScreenShares (st : RoomState) (socketId : String) :
    RoomState × List String :=
  let removed := st.producers.filterMap (fun kv =>
    if kv.2.socketId = socketId ∧ kv.2.source = "screen" then some kv.1 else none)
  let availPres := st.producers.foldl (fun acc kv =>
    if kv.2.socketId = socketId ∧ kv.2.source = "screen" then
      match kv.2.presentationIndex with
      | some i => releaseIndex st.maxScreenShares acc i
      | none => acc
    else acc) st.availablePresentationIndexes
  ({ st with
      producers := st.producers.filter (fun kv =>
        ¬(kv.2.socketId = socketId ∧ kv.2.source = "screen"))
      screenProducers := st.screenProducers.filter (fun pid =>
        match st.producers.lookup pid with
        | some pd => ¬(pd.socketId = socketId ∧ pd.source = "screen")
        | none => True)
      availablePresentationIndexes := availPres },
   removed)

/-- `cleanupUser(socketId)` (`server.js` lines 162-199): delete the users
entry, release its user index (only if the entry existed), delete every
producer owned by `socketId` (releasing presentation indexes of its
screen producers and dropping them from `screenProducers`), and delete
every transport owned by `socketId`. -/
def cleanupUser (st : RoomState) (socketId : String) : RoomState :=
  let userState := st.users.lookup socketId
  let avail :=
    match userState with
    | some u => releaseIndex st.maxUsers st.availableIndexes u.userIndex
    | none => st.availableIndexes
  let availPres := st.producers.foldl (fun acc kv =>
    if kv.2.socketId = socketId ∧ kv.2.source = "screen" then
      match kv.2.presentationIndex with
      | some i => releaseIndex st.maxScreenShares acc i
      | none => acc
    else acc) st.availablePresentationIndexes
  { st with
      users := st.users.filter (fun kv => kv.1 ≠ socketId)
      availableIndexes := avail
      producers := st.producers.filter (fun kv => kv.2.socketId ≠ socketId)
      screenProducers := st.screenProducers.filter (fun pid =>
        match st.producers.lookup pid with
        | some pd => ¬(pd.socketId = socketId ∧ pd.source = "screen")
        | none => True)
      availablePresentationIndexes := availPres
      transports := st.transports.filter (fun kv => kv.2.socketId ≠ socketId) }

/-! ## Server handlers (`server.js` lines 324-684)

Each handler is embedded as a function from the room state (plus the
request parameters and the ids minted by the external media engine) to
the new room state and the list of emitted events. -/

/-- Result of `POST /produce`. -/
inductive ProduceResult
  | ok (producerId : String)
  | transportNotFound
  | screenLimitReached
deriving DecidableEq, Repr

/-- `POST /create-transport` (`server.js` lines 324-372): rejects a
missing socketId; rejects `direction === 'send'` from a socket that is
not in the room while the room is full; otherwise records the transport
created by the media engine (its fresh id is `newTransportId`). -/
def handleCreateTransport (st : RoomState) (socketId direction newTransportId : String) :
    RoomState × Option String :=
  if socketId = "" then (st, none)
  else if direction = "send" ∧ (st.users.lookup socketId).isNone ∧ isRoomFull st then
    (st, none)
  else
    ({ st with transports := mapSet st.transports newTransportId ⟨socketId, direction⟩ },
     some newTransportId)

/-- `POST /produce` (`server.js` lines 391-472).  `newProducerId` is the
id minted by the external media engine for the created producer. -/
def handleProduce (st : RoomState) (transportId kind socketId source newProducerId : String) :
    RoomState × List Emit × ProduceResult :=
  match st.transports.lookup transportId with
  | none => (st, [], ProduceResult.transportNotFound)
  | some _ =>
    if source = "screen" ∧ getScreenShareCount st ≥ st.maxScreenShares then
      (st, [], ProduceResult.screenLimitReached)
    else
      let peerName :=
        match getUserBySocketId st socketId with
        | some u => u.name
        | none => "Unknown"
      if source = "screen" then
        match getNextIndex st.availablePresentationIndexes with
        | (none, _) => (st, [], ProduceResult.screenLimitReached)
        | (some presentationIndex, restPool) =>
          let producerData : ProducerData :=
            ⟨socketId, kind, source, some presentationIndex⟩
          let st1 := { st with
            availablePresentationIndexes := restPool
            screenProducers :=
              if newProducerId ∈ st.screenProducers then st.screenProducers
              else st.screenProducers ++ [newProducerId] }
          let emits : List Emit :=
            [(Recipients.all,
              Payload.newPresentation newProducerId socketId kind peerName presentationIndex),
             (Recipients.all,
              Payload.roomStatus st1.users.length st1.maxUsers (getScreenShareCount st1))]
          ({ st1 with producers := mapSet st1.producers newProducerId producerData },
           emits, ProduceResult.ok newProducerId)
      else
        let producerData : ProducerData :=
          ⟨socketId, kind, if source = "" then "camera" else source, none⟩
        let emits : List Emit :=
          if socketId = "" then []
          else
            [(Recipients.exceptOne socketId,
              Payload.newProducer newProducerId socketId kind
                (if source = "" then "camera" else source) peerName
                (match getUserBySocketId st socketId with
                 | some u => u.userIndex
                 | none => 0))]
        ({ st with producers := mapSet st.producers newProducerId producerData },
         emits, ProduceResult.ok newProducerId)

/-- `io.on("connection")` admission path (`server.js` lines 528-579):
reject with `room-full` while the room is full or no user index is free;
otherwise assign the smallest free index, record the user, send the init
snapshot to the new socket, broadcast `user-joined` to the others and
`room-status` to everyone. -/
def handleConnection (st : RoomState) (socketId : String) : RoomState × List Emit :=
  if isRoomFull st then
    (st, [(Recipients.only socketId, Payload.roomFull)])
  else
    match getNextIndex st.availableIndexes with
    | (none, _) => (st, [(Recipients.only socketId, Payload.roomFull)])
    | (some userIndex, restPool) =>
      let st1 := { st with
        availableIndexes := restPool
        users := mapSet st.users socketId ⟨socketId, "Anonymous", true, true, userIndex⟩ }
      (st1,
       [(Recipients.only socketId,
         Payload.initSnapshot userIndex (getAllUsers st1 (some socketId)) st1.producers),
        (Recipients.exceptOne socketId,
         Payload.userJoined socketId "Anonymous" userIndex true true),
        (Recipients.all,
         Payload.roomStatus st1.users.length st1.maxUsers (getScreenShareCount st1))])

/-- `socket.on("stop-screen-share")` (`server.js` lines 626-647):
remove the socket's screen producers, then emit one `presentation-ended`
per removed producer and a `room-status` update. -/
def handleStopScreenShare (st : RoomState) (socketId : String) : RoomState × List Emit :=
  let (st1, removed) := removeUserScreenShares st socketId
  (st1,
   removed.map (fun pid => (Recipients.all, Payload.presentationEnded pid)) ++
     [(Recipients.all,
       Payload.roomStatus st1.users.length st1.maxUsers (getScreenShareCount st1))])

/-- `socket.on("disconnect")` (`server.js` lines 649-684): run
`cleanupUser` first, broadcast `user-left`, then scan the (already
cleaned) producers map for the socket's screen producers and emit
`presentation-ended` for each, then a `room-status` update. -/
def handleDisconnect (st : RoomState) (socketId : String) : RoomState × List Emit :=
  let st1 := cleanupUser st socketId
  let endEmits : List Emit := st1.producers.filterMap (fun kv =>
    if kv.2.socketId = socketId ∧ kv.2.source = "screen" then
      some (Recipients.all, Payload.presentationEnded kv.1)
    else none)
  (st1,
   (Recipients.exceptOne socketId, Payload.userLeft socketId) ::
     endEmits ++
       [(Recipients.all,
         Payload.roomStatus st1.users.length st1.maxUsers (getScreenShareCount st1))])

/-- A room with one admitted user `A` at user slot 0 who owns one live
screen-share producer `p1` at presentation slot 0 (the state reached by
admitting `A`, creating its send transport and producing a screen
track), with limits `maxUsers = 3`, `maxScreenShares = 2`. -/
def roomOneScreenShare : RoomState :=
  { users := [("A", ⟨"A", "Alice", true, true, 0⟩)]
    availableIndexes := [1, 2]
    transports := [("t1", ⟨"A", "send"⟩)]
    producers := [("p1", ⟨"A", "video", "screen", some 0⟩)]
    screenProducers := ["p1"]
    availablePresentationIndexes := [1]
    maxUsers := 3
    maxScreenShares := 2 }

/-- The empty room at startup with `maxUsers = 3`, `maxScreenShares = 2`. -/
def emptyRoom : RoomState :=
  { users := []
    availableIndexes := [0, 1, 2]
    transports := []
    producers := []
    screenProducers := []
    availablePresentationIndexes := [0, 1]
    maxUsers := 3
    maxScreenShares := 2 }

/-- The room after a `/create-transport` request with `socketId "ghost"`
and `direction "recv"` against the empty room: the endpoint never checks
room membership, so the transport is recorded for an owner that has no
`users` entry. -/
def ghostTransportRoom : RoomState :=
  (handleCreateTransport emptyRoom "ghost" "recv" "t9").1

end Shashlichka

namespace Shashlichka

/-! ## Helper lemmas about association lists and folds. -/

/-- helper: filtering twice with one predicate equals filtering once. -/
theorem filter_idem {α : Type} (p : α → Bool) (l : List α) :
    (l.filter p).filter p = l.filter p := by
  induction l with
  | nil => simp
  | cons a t ih => by_cases h : p a <;> simp [h, ih]

/-- helper: after deleting key `s`, looking `s` up finds nothing. -/
theorem lookup_filter_key_ne {β : Type} (l : List (String × β)) (s : String) :
    (l.filter (fun kv => kv.1 ≠ s)).lookup s = none := by
  rw [List.lookup_eq_none_iff]
  intro p hp
  have hpne : p.1 ≠ s := by simpa using List.of_mem_filter hp
  simpa [bne_iff_ne] using fun h => hpne h.symm

/-- helper: a successful lookup finds the value of a member pair. -/
theorem mem_of_lookup_eq_some {β : Type} {l : List (String × β)} {k : String} {v : β}
    (h : l.lookup k = some v) : (k, v) ∈ l := by
  rcases List.lookup_eq_some_iff.mp h with ⟨l₁, l₂, rfl, -⟩
  simp

/-- helper: if a key is absent, no member pair carries it. -/
theorem key_ne_of_lookup_none {β : Type} {l : List (String × β)} {s : String}
    (h : l.lookup s = none) : ∀ kv ∈ l, kv.1 ≠ s := by
  intro kv hkv
  have := List.lookup_eq_none_iff.mp h kv hkv
  simpa [bne_iff_ne] using fun he => (bne_iff_ne.mp this) he.symm

/-- helper: a fold whose step never changes the accumulator on the
list's members returns its initial value. -/
theorem foldl_fixed {α β : Type} (f : β → α → β) (l : List α) (init : β)
    (h : ∀ acc, ∀ x ∈ l, f acc x = acc) : l.foldl f init = init := by
  induction l generalizing init with
  | nil => rfl
  | cons a t ih =>
    rw [List.foldl_cons, h init a (by simp)]
    exact ih init (fun acc x hx => h acc x (by simp [hx]))

/-- helper: `cleanupUser` is a no-op for a socket id that has no users
entry and owns no producer and no transport. -/
theorem cleanupUser_noop (st : RoomState) (s : String)
    (hu : st.users.lookup s = none)
    (hp : ∀ kv ∈ st.producers, kv.2.socketId ≠ s)
    (ht : ∀ kv ∈ st.transports, kv.2.socketId ≠ s) :
    cleanupUser st s = st := by
  have husers : st.users.filter (fun kv => kv.1 ≠ s) = st.users :=
    List.filter_eq_self.mpr (fun kv hkv => by
      simpa using key_ne_of_lookup_none hu kv hkv)
  have hprod : st.producers.filter (fun kv => kv.2.socketId ≠ s) = st.producers :=
    List.filter_eq_self.mpr (fun kv hkv => by simpa using hp kv hkv)
  have htrans : st.transports.filter (fun kv => kv.2.socketId ≠ s) = st.transports :=
    List.filter_eq_self.mpr (fun kv hkv => by simpa using ht kv hkv)
  have hscreen : st.screenProducers.filter (fun pid =>
      match st.producers.lookup pid with
      | some pd => ¬(pd.socketId = s ∧ pd.source = "screen")
      | none => True) = st.screenProducers :=
    List.filter_eq_self.mpr (fun pid _ => by
      cases hl : st.producers.lookup pid with
      | none => simp [hl]
      | some pd =>
        have hne := hp (pid, pd) (mem_of_lookup_eq_some hl)
        simp only at hne
        simp [hl, hne])
  have havailp : st.producers.foldl (fun acc kv =>
      if kv.2.socketId = s ∧ kv.2.source = "screen" then
        match kv.2.presentationIndex with
        | some i => releaseIndex st.maxScreenShares acc i
        | none => acc
      else acc) st.availablePresentationIndexes = st.availablePresentationIndexes :=
    foldl_fixed _ _ _ (fun acc kv hkv => by simp [hp kv hkv])
  simp only [cleanupUser, hu, husers, hprod, htrans, hscreen, havailp]

end Shashlichka

namespace Shashlichka

/-! ## Claim theorems about the server. -/

/-- C1 (code bug): when participant `A`, owner of the single live
screen-share producer `p1`, disconnects, the handler destroys `p1`
(the producers map ends empty) and broadcasts the `user-left` delta, but
emits zero `presentation-ended` deltas — `cleanupUser` runs first and
deletes `A`'s producers before the notification loop scans the producers
map, so the loop finds nothing.  The spec requires one end-delta per
destroyed screen-share producer. -/
theorem disconnect_emits_no_presentation_ended :
    (roomOneScreenShare.producers.filterMap (fun kv =>
      if kv.2.socketId = "A" ∧ kv.2.source = "screen" then some kv.1 else none)
       = ["p1"]) ∧
    (handleDisconnect roomOneScreenShare "A").1.producers = [] ∧
    ((Recipients.exceptOne "A", Payload.userLeft "A")
       ∈ (handleDisconnect roomOneScreenShare "A").2) ∧
    ((handleDisconnect roomOneScreenShare "A").2.filter (fun e =>
      match e.2 with
      | Payload.presentationEnded _ => true
      | _ => false) = []) := by
  decide

/-- C8: a `/produce` request with `source = "screen"` made while
screen-share capacity is exhausted (either `screenProducers.size` at the
limit, or the presentation slot pool empty) fails with the
PresentationFull error and returns the room state exactly unchanged —
slot pool, producers, screenProducers and transports included. -/
theorem produce_screen_full_no_mutation (st : RoomState)
    (transportId kind socketId newProducerId : String)
    (ht : (st.transports.lookup transportId).isSome)
    (hfull : getScreenShareCount st ≥ st.maxScreenShares ∨
      st.availablePresentationIndexes = []) :
    handleProduce st transportId kind socketId "screen" newProducerId =
      (st, [], ProduceResult.screenLimitReached) := by
  unfold handleProduce
  cases hl : st.transports.lookup transportId with
  | none => simp [hl] at ht
  | some td =>
    by_cases hc : getScreenShareCount st ≥ st.maxScreenShares
    · simp [hc]
    · have hpool : st.availablePresentationIndexes = [] := by
        rcases hfull with h | h
        · exact absurd h hc
        · exact h
      simp [hc, hpool, getNextIndex]

/-- Witness for C8: in the concrete room `roomOneScreenShare` with its
presentation pool forced empty, producing a screen track over the
existing transport `t1` fails and leaves the state unchanged. -/
theorem produce_screen_full_no_mutation_witness :
    handleProduce
        { roomOneScreenShare with availablePresentationIndexes := [] }
        "t1" "video" "A" "screen" "p2" =
      ({ roomOneScreenShare with availablePresentationIndexes := [] },
       [], ProduceResult.screenLimitReached) := by
  exact produce_screen_full_no_mutation _ "t1" "video" "A" "p2"
    (by decide) (Or.inr rfl)

/-- C9: a connection attempt made while the number of admitted users
equals `maxUsers` is rejected with `room-full` sent to that socket only,
and the returned room state is exactly the input state — users map, both
slot pools, transports, producers and screenProducers unchanged. -/
theorem connection_room_full_no_mutation (st : RoomState) (socketId : String)
    (h : st.users.length = st.maxUsers) :
    handleConnection st socketId =
      (st, [(Recipients.only socketId, Payload.roomFull)]) := by
  unfold handleConnection
  have hfull : isRoomFull st = true := by
    simp [isRoomFull, h]
  simp [hfull]

/-- Witness for C9: the concrete full room (one user, `maxUsers = 1`)
rejects socket `B` with `room-full` and is left unchanged. -/
theorem connection_room_full_no_mutation_witness :
    handleConnection { roomOneScreenShare with maxUsers := 1 } "B" =
      ({ roomOneScreenShare with maxUsers := 1 },
       [(Recipients.only "B", Payload.roomFull)]) := by
  exact connection_room_full_no_mutation _ "B" (by decide)

/-- C10 counterexample: `ghostTransportRoom` is reached from the empty
room by one `/create-transport` call for socket id `"ghost"` (the
endpoint records the transport without requiring a users entry).
`"ghost"` has no entry in the users map, yet `cleanupUser "ghost"` is
not a no-op: it deletes the orphan transport. -/
theorem cleanupUser_changes_state_for_ghost_owner :
    ghostTransportRoom.users.lookup "ghost" = none ∧
      cleanupUser ghostTransportRoom "ghost" ≠ ghostTransportRoom := by
  decide

/-- C10 (amended): `cleanupUser` is idempotent — a second run for the
same socket id changes nothing; a run for a socket id with no users
entry releases no user index (so an index is released at most once per
admission and the free pool gains no duplicate through the disconnect
path); and a run for a socket id with no users entry that also owns no
producer and no transport leaves the whole room state unchanged. -/
theorem cleanupUser_idempotent (st : RoomState) (s : String) :
    cleanupUser (cleanupUser st s) s = cleanupUser st s ∧
    (st.users.lookup s = none →
      (cleanupUser st s).availableIndexes = st.availableIndexes) ∧
    (st.users.lookup s = none →
      (∀ kv ∈ st.producers, kv.2.socketId ≠ s) →
      (∀ kv ∈ st.transports, kv.2.socketId ≠ s) →
      cleanupUser st s = st) := by
  refine ⟨?_, ?_, ?_⟩
  · apply cleanupUser_noop
    · exact lookup_filter_key_ne st.users s
    · intro kv hkv
      simpa using List.of_mem_filter hkv
    · intro kv hkv
      simpa using List.of_mem_filter hkv
  · intro hu
    simp [cleanupUser, hu]
  · intro hu hp ht
    exact cleanupUser_noop st s hu hp ht

/-- Witness for C10 (amended): concrete instance on the one-share room
for the absent socket id `"B"`. -/
theorem cleanupUser_idempotent_witness :
    cleanupUser (cleanupUser roomOneScreenShare "B") "B" =
        cleanupUser roomOneScreenShare "B" ∧
    (roomOneScreenShare.users.lookup "B" = none →
      (cleanupUser roomOneScreenShare "B").availableIndexes =
        roomOneScreenShare.availableIndexes) ∧
    (roomOneScreenShare.users.lookup "B" = none →
      (∀ kv ∈ roomOneScreenShare.producers, kv.2.socketId ≠ "B") →
      (∀ kv ∈ roomOneScreenShare.transports, kv.2.socketId ≠ "B") →
      cleanupUser roomOneScreenShare "B" = roomOneScreenShare) := by
  exact cleanupUser_idempotent roomOneScreenShare "B"

end Shashlichka

namespace Shashlichka

/-! ## Client state (`public/client.js`, class `VideoConference`)

The fields of the client relevant to the SessionReplicator and the
ConsumptionPipeline: the bookkeeping maps (`consumers`,
`consumerTransports`, `presentations`, `userStates`), the two pending
queues and the readiness flag, plus the grid of render-slot element ids
(`renderSlots` models which `video-wrapper` elements exist, by DOM id). -/

/-- The fields of a creation event / snapshot entry as the client reads
them (`new-producer`, `new-presentation` and `getAllProducers` rows). -/
structure ProducerInfo where
  id : String
  socketId : String
  kind : String
  source : String
  peerName : String
  userIndex : Nat
  presentationIndex : Option Nat
  isScreen : Bool
deriving DecidableEq, Repr

/-- `consumers` map value:
`{ consumer, transport, socketId, kind, isPresentation }`. -/
structure ConsumerEntry where
  socketId : String
  kind : String
  isPresentation : Bool
deriving DecidableEq, Repr

/-- `presentations` map value: `{ socketId, peerName, presentationIndex }`. -/
structure PresentationRec where
  socketId : String
  peerName : String
  presentationIndex : Option Nat
deriving DecidableEq, Repr

/-- `userStates` map value:
`{ name, userIndex, videoEnabled, audioEnabled }`. -/
structure ClientUser where
  name : String
  userIndex : Nat
  videoEnabled : Bool
  audioEnabled : Bool
deriving DecidableEq, Repr

/-- The client's replicator/pipeline state. -/
structure ClientState where
  selfId : String
  deviceReady : Bool
  myUserIndex : Nat
  consumers : List (String × ConsumerEntry)
  consumerTransports : List (String × String)
  presentations : List (String × PresentationRec)
  userStates : List (String × ClientUser)
  renderSlots : List String
  pendingProducers : List ProducerInfo
  pendingPresentations : List ProducerInfo
deriving DecidableEq, Repr

/-- Outcome of the external calls one `consumeProducer` run makes:
the `/create-transport` fetch (`some` fresh transport id or failure),
the `/consume` fetch, and `consumerTransport.consume` (which also
covers the transport `connect` handshake it triggers). -/
structure ConsumeEnv where
  createTransportResult : Option String
  consumeOk : Bool
  transportConsumeOk : Bool
deriving DecidableEq, Repr

/-- `createUserElement` (`client.js` lines 1082-1117), DOM effect only:
create the `user-<socketId>` render slot unless it already exists. -/
def createUserElement (st : ClientState) (socketId : String) : ClientState :=
  if ("user-" ++ socketId) ∈ st.renderSlots then st
  else { st with renderSlots := st.renderSlots ++ ["user-" ++ socketId] }

/-- `createPresentationElement` (`client.js` lines 1119-1149), DOM
effect only: create the `presentation-<producerId>` render slot unless
it already exists. -/
def createPresentationElement (st : ClientState) (producerId : String) : ClientState :=
  if ("presentation-" ++ producerId) ∈ st.renderSlots then st
  else { st with renderSlots := st.renderSlots ++ ["presentation-" ++ producerId] }

/-- `consumeProducer(data, isPresentation)` (`client.js` lines 986-1080):
skip own non-presentation resources; skip already-consumed producer ids;
otherwise create a receive transport (recorded in `consumerTransports`
as soon as it exists), request and attach the consumer, then record
bookkeeping and create the render slot.  Every failure is caught and
only logged: whatever was already recorded stays. -/
def consumeProducer (st : ClientState) (env : ConsumeEnv) (data : ProducerInfo)
    (isPresentation : Bool) : ClientState :=
  if data.socketId = st.selfId ∧ ¬isPresentation then st
  else if (st.consumers.lookup data.id).isSome then st
  else
    match env.createTransportResult with
    | none => st
    | some transportId =>
      let st1 := { st with
        consumerTransports := mapSet st.consumerTransports transportId transportId }
      if ¬env.consumeOk then st1
      else if ¬env.transportConsumeOk then st1
      else
        let st2 := { st1 with
          consumers := mapSet st1.consumers data.id
            ⟨data.socketId, data.kind, isPresentation⟩ }
        if isPresentation then
          let st3 := { st2 with
            presentations := mapSet st2.presentations data.id
              ⟨data.socketId, data.peerName, data.presentationIndex⟩ }
          createPresentationElement st3 data.id
        else
          let st3 :=
            if (st2.userStates.lookup data.socketId).isSome then st2
            else { st2 with
              userStates := mapSet st2.userStates data.socketId
                ⟨data.peerName, data.userIndex, true, true⟩ }
          createUserElement st3 data.socketId

/-- `addUser` (`client.js` lines 891-902): record a remote user unless
it is the local socket. -/
def addUser (st : ClientState) (socketId name : String) (userIndex : Nat)
    (videoEnabled audioEnabled : Bool) : ClientState :=
  if socketId = st.selfId then st
  else { st with
    userStates := mapSet st.userStates socketId
      ⟨name, userIndex, videoEnabled, audioEnabled⟩ }

/-- `socket.on('init')` (`client.js` lines 759-777): record the assigned
user index, add every current user, and route every snapshot resource
into the pending queues unconditionally (screen producers into the
presentation queue, the rest into the producer queue). -/
def handleInit (st : ClientState) (userIndex : Nat)
    (currentUsers : List (String × UserState))
    (currentProducers : List ProducerInfo) : ClientState :=
  let st1 := { st with myUserIndex := userIndex }
  let st2 := currentUsers.foldl (fun s u =>
    addUser s u.1 u.2.name u.2.userIndex u.2.videoEnabled u.2.audioEnabled) st1
  currentProducers.foldl (fun s p =>
    if p.isScreen then { s with pendingPresentations := s.pendingPresentations ++ [p] }
    else { s with pendingProducers := s.pendingProducers ++ [p] }) st2

/-- `socket.on('new-producer')` (`client.js` lines 791-799): buffer while
the device is not ready, else dispatch to the pipeline immediately.  The
second component is the list of dispatches made to the pipeline. -/
def handleNewProducer (st : ClientState) (env : ConsumeEnv) (data : ProducerInfo) :
    ClientState × List (ProducerInfo × Bool) :=
  if ¬st.deviceReady then
    ({ st with pendingProducers := st.pendingProducers ++ [data] }, [])
  else (consumeProducer st env data false, [(data, false)])

/-- `socket.on('new-presentation')` (`client.js` lines 801-809). -/
def handleNewPresentation (st : ClientState) (env : ConsumeEnv) (data : ProducerInfo) :
    ClientState × List (ProducerInfo × Bool) :=
  if ¬st.deviceReady then
    ({ st with pendingPresentations := st.pendingPresentations ++ [data] }, [])
  else (consumeProducer st env data true, [(data, true)])

/-- One queue of the drain loop in `processPendingProducers`: dispatch
each buffered item to the pipeline in order (failures are caught and
logged), returning the final state and the dispatch trace. -/
def drainQueue (envf : ProducerInfo → ConsumeEnv) (isPresentation : Bool) :
    ClientState → List ProducerInfo → ClientState × List (ProducerInfo × Bool)
  | st, [] => (st, [])
  | st, p :: rest =>
    let st1 := consumeProducer st (envf p) p isPresentation
    let (st2, tr) := drainQueue envf isPresentation st1 rest
    (st2, (p, isPresentation) :: tr)

/-- `processPendingProducers` (`client.js` lines 853-880): early-return
when both queues are empty; else dispatch the producer queue, then the
presentation queue, each in FIFO order, then clear both queues. -/
def processPendingProducers (st : ClientState) (envf : ProducerInfo → ConsumeEnv) :
    ClientState × List (ProducerInfo × Bool) :=
  if st.pendingProducers = [] ∧ st.pendingPresentations = [] then (st, [])
  else
    let (st1, tr1) := drainQueue envf false st st.pendingProducers
    let (st2, tr2) := drainQueue envf true st1 st.pendingPresentations
    ({ st2 with pendingProducers := [], pendingPresentations := [] }, tr1 ++ tr2)

/-- The semantic render-slot id of a consumed resource: presentations
key their slot by producer id, user media by owner socket id. -/
def semanticId (data : ProducerInfo) (isPresentation : Bool) : String :=
  if isPresentation then "presentation-" ++ data.id else "user-" ++ data.socketId

end Shashlichka

namespace Shashlichka

/-! ## Helper lemmas about the client pipeline. -/

/-- helper: `Map.set` with an absent key appends the pair. -/
theorem mapSet_of_lookup_none {β : Type} {m : List (String × β)} {k : String} (v : β)
    (h : m.lookup k = none) : mapSet m k v = m ++ [(k, v)] := by
  simp [mapSet, h]

/-- helper: looking up the key just appended to a map that lacked it. -/
theorem lookup_append_single {β : Type} (m : List (String × β)) (k : String) (v : β)
    (h : m.lookup k = none) : (m ++ [(k, v)]).lookup k = some v := by
  simp [List.lookup_append, h]

/-- helper: a map without key `k` has no pair keyed `k`. -/
theorem filter_key_nil_of_lookup_none {β : Type} {m : List (String × β)} {k : String}
    (h : m.lookup k = none) : m.filter (fun kv => kv.1 = k) = [] := by
  rw [List.filter_eq_nil_iff]
  intro kv hkv
  simpa using key_ne_of_lookup_none h kv hkv

/-- helper: the drain loop dispatches exactly the queued items, in
queue order, tagged with the queue they came from. -/
theorem drainQueue_trace (envf : ProducerInfo → ConsumeEnv) (b : Bool)
    (st : ClientState) (l : List ProducerInfo) :
    (drainQueue envf b st l).2 = l.map (fun p => (p, b)) := by
  induction l generalizing st with
  | nil => rfl
  | cons p rest ih => simp [drainQueue, ih]

/-- helper: `addUser` never touches the pending queues. -/
theorem addUser_pending (st : ClientState) (sid n : String) (ui : Nat) (v a : Bool) :
    (addUser st sid n ui v a).pendingProducers = st.pendingProducers ∧
    (addUser st sid n ui v a).pendingPresentations = st.pendingPresentations := by
  unfold addUser
  split <;> simp

/-- helper: the init handler's user loop never touches the pending queues. -/
theorem foldl_addUser_pending (cu : List (String × UserState)) (st : ClientState) :
    (cu.foldl (fun s u =>
      addUser s u.1 u.2.name u.2.userIndex u.2.videoEnabled u.2.audioEnabled) st).pendingProducers
        = st.pendingProducers ∧
    (cu.foldl (fun s u =>
      addUser s u.1 u.2.name u.2.userIndex u.2.videoEnabled u.2.audioEnabled) st).pendingPresentations
        = st.pendingPresentations := by
  induction cu generalizing st with
  | nil => exact ⟨rfl, rfl⟩
  | cons u rest ih =>
    rw [List.foldl_cons]
    refine ⟨?_, ?_⟩
    · rw [(ih _).1, (addUser_pending _ _ _ _ _ _).1]
    · rw [(ih _).2, (addUser_pending _ _ _ _ _ _).2]

/-- helper: the init handler's producer loop routes screen producers to
the presentation queue and the rest to the producer queue, appending in
arrival order. -/
theorem foldl_route_pending (cp : List ProducerInfo) (st : ClientState) :
    (cp.foldl (fun s p =>
      if p.isScreen then { s with pendingPresentations := s.pendingPresentations ++ [p] }
      else { s with pendingProducers := s.pendingProducers ++ [p] }) st).pendingProducers
        = st.pendingProducers ++ cp.filter (fun p => !p.isScreen) ∧
    (cp.foldl (fun s p =>
      if p.isScreen then { s with pendingPresentations := s.pendingPresentations ++ [p] }
      else { s with pendingProducers := s.pendingProducers ++ [p] }) st).pendingPresentations
        = st.pendingPresentations ++ cp.filter (fun p => p.isScreen) := by
  induction cp generalizing st with
  | nil => simp
  | cons p rest ih =>
    by_cases hs : p.isScreen = true <;>
      simp [List.foldl_cons, hs, List.filter_cons, (ih _).1, (ih _).2]

end Shashlichka

namespace Shashlichka

/-! ## Claim theorems about the client. -/

/-- C6: the SessionReplicator's drain dispatches every buffered item
exactly once — the dispatch trace is the producer queue first, then the
presentation queue, each in FIFO arrival order — and afterwards both
queues are empty; a live creation event arriving while the device is
not ready is appended to its queue (and dispatches nothing); and the
init snapshot enqueues every snapshot resource unconditionally, screen
producers to the presentation queue and the rest to the producer queue,
in snapshot order. -/
theorem replicator_drains_in_order (st : ClientState)
    (envf : ProducerInfo → ConsumeEnv) (env : ConsumeEnv) (d : ProducerInfo)
    (userIndex : Nat) (currentUsers : List (String × UserState))
    (currentProducers : List ProducerInfo) :
    (processPendingProducers st envf).2 =
      st.pendingProducers.map (fun p => (p, false)) ++
        st.pendingPresentations.map (fun p => (p, true)) ∧
    (processPendingProducers st envf).1.pendingProducers = [] ∧
    (processPendingProducers st envf).1.pendingPresentations = [] ∧
    (st.deviceReady = false →
      handleNewProducer st env d =
        ({ st with pendingProducers := st.pendingProducers ++ [d] }, []) ∧
      handleNewPresentation st env d =
        ({ st with pendingPresentations := st.pendingPresentations ++ [d] }, [])) ∧
    (handleInit st userIndex currentUsers currentProducers).pendingProducers =
      st.pendingProducers ++ currentProducers.filter (fun p => !p.isScreen) ∧
    (handleInit st userIndex currentUsers currentProducers).pendingPresentations =
      st.pendingPresentations ++ currentProducers.filter (fun p => p.isScreen) := by
  refine ⟨?_, ?_, ?_, ?_, ?_, ?_⟩
  · unfold processPendingProducers
    split
    · rename_i hboth
      simp [hboth.1, hboth.2]
    · simp [drainQueue_trace]
  · unfold processPendingProducers
    split
    · rename_i hboth
      simp [hboth.1]
    · simp
  · unfold processPendingProducers
    split
    · rename_i hboth
      simp [hboth.2]
    · simp
  · intro hready
    constructor
    · simp [handleNewProducer, hready]
    · simp [handleNewPresentation, hready]
  · unfold handleInit
    rw [(foldl_route_pending _ _).1, (foldl_addUser_pending _ _).1]
  · unfold handleInit
    rw [(foldl_route_pending _ _).2, (foldl_addUser_pending _ _).2]

/-- Witness for C6 at a concrete not-ready client with one buffered
producer and one buffered presentation. -/
theorem replicator_drains_in_order_witness :
    (processPendingProducers
        { selfId := "me", deviceReady := false, myUserIndex := 0, consumers := [],
          consumerTransports := [], presentations := [], userStates := [],
          renderSlots := [],
          pendingProducers := [⟨"p1", "B", "video", "camera", "Bob", 1, none, false⟩],
          pendingPresentations := [⟨"p2", "B", "video", "screen", "Bob", 1, some 0, true⟩] }
        (fun _ => ⟨none, false, false⟩)).2 =
      [(⟨"p1", "B", "video", "camera", "Bob", 1, none, false⟩, false),
       (⟨"p2", "B", "video", "screen", "Bob", 1, some 0, true⟩, true)] := by
  exact (replicator_drains_in_order _ _ ⟨none, false, false⟩
    ⟨"p1", "B", "video", "camera", "Bob", 1, none, false⟩ 0 [] []).1

/-- C7: `consumeProducer` is idempotent per resource id — after a first
successful consumption of a fresh resource, a second call with the same
id is a no-op, and the state holds exactly one bookkeeping entry in the
`consumers` map and exactly one render slot for that resource. -/
theorem consume_idempotent_one_slot (st : ClientState) (env env2 : ConsumeEnv)
    (data : ProducerInfo) (b : Bool) (tid : String)
    (hskip : ¬(data.socketId = st.selfId ∧ ¬b))
    (hfresh : st.consumers.lookup data.id = none)
    (he1 : env.createTransportResult = some tid)
    (he2 : env.consumeOk = true)
    (he3 : env.transportConsumeOk = true)
    (hslot : semanticId data b ∉ st.renderSlots) :
    consumeProducer (consumeProducer st env data b) env2 data b =
      consumeProducer st env data b ∧
    ((consumeProducer st env data b).consumers.filter
        (fun kv => kv.1 = data.id)).length = 1 ∧
    (consumeProducer st env data b).renderSlots.count (semanticId data b) = 1 := by
  have happ : mapSet st.consumers data.id ⟨data.socketId, data.kind, b⟩
      = st.consumers ++ [(data.id, ⟨data.socketId, data.kind, b⟩)] :=
    mapSet_of_lookup_none _ hfresh
  have hfilter0 : st.consumers.filter (fun kv => kv.1 = data.id) = [] :=
    filter_key_nil_of_lookup_none hfresh
  have hcount0 : st.renderSlots.count (semanticId data b) = 0 :=
    List.count_eq_zero.mpr hslot
  have hlk2 := lookup_append_single st.consumers data.id
    (⟨data.socketId, data.kind, b⟩ : ConsumerEntry) hfresh
  cases b with
  | true =>
    have hslot' : ("presentation-" ++ data.id) ∉ st.renderSlots := by
      simpa [semanticId] using hslot
    have hrun : consumeProducer st env data true =
        { st with
          consumerTransports := mapSet st.consumerTransports tid tid
          consumers := st.consumers ++ [(data.id, ⟨data.socketId, data.kind, true⟩)]
          presentations := mapSet st.presentations data.id
            ⟨data.socketId, data.peerName, data.presentationIndex⟩
          renderSlots := st.renderSlots ++ ["presentation-" ++ data.id] } := by
      simp [consumeProducer, he1, he2, he3, hfresh, happ,
        createPresentationElement, hslot']
    refine ⟨?_, ?_, ?_⟩
    · rw [hrun]
      simp [consumeProducer, hlk2]
    · rw [hrun]
      simp [List.filter_append, hfilter0]
    · rw [hrun]
      have hcount0' : List.count ("presentation-" ++ data.id) st.renderSlots = 0 := by
        simpa [semanticId] using hcount0
      simp [semanticId, List.count_append, hcount0']
  | false =>
    have hsid : ¬ data.socketId = st.selfId := fun h => hskip ⟨h, by simp⟩
    have hslot' : ("user-" ++ data.socketId) ∉ st.renderSlots := by
      simpa [semanticId] using hslot
    have hcount0' : List.count ("user-" ++ data.socketId) st.renderSlots = 0 := by
      simpa [semanticId] using hcount0
    by_cases hus : (st.userStates.lookup data.socketId).isSome
    · have hrun : consumeProducer st env data false =
          { st with
            consumerTransports := mapSet st.consumerTransports tid tid
            consumers := st.consumers ++ [(data.id, ⟨data.socketId, data.kind, false⟩)]
            renderSlots := st.renderSlots ++ ["user-" ++ data.socketId] } := by
        simp [consumeProducer, he1, he2, he3, hfresh, happ, hsid, hus,
          createUserElement, hslot']
      refine ⟨?_, ?_, ?_⟩
      · rw [hrun]
        simp [consumeProducer, hlk2, hsid]
      · rw [hrun]
        simp [List.filter_append, hfilter0]
      · rw [hrun]
        simp [semanticId, List.count_append, hcount0']
    · have hrun : consumeProducer st env data false =
          { st with
            consumerTransports := mapSet st.consumerTransports tid tid
            consumers := st.consumers ++ [(data.id, ⟨data.socketId, data.kind, false⟩)]
            userStates := mapSet st.userStates data.socketId
              ⟨data.peerName, data.userIndex, true, true⟩
            renderSlots := st.renderSlots ++ ["user-" ++ data.socketId] } := by
        simp [consumeProducer, he1, he2, he3, hfresh, happ, hsid, hus,
          createUserElement, hslot']
      refine ⟨?_, ?_, ?_⟩
      · rw [hrun]
        simp [consumeProducer, hlk2, hsid]
      · rw [hrun]
        simp [List.filter_append, hfilter0]
      · rw [hrun]
        simp [semanticId, List.count_append, hcount0']

/-- Witness for C7: a fresh presentation `p2` of peer `B` consumed twice
by client `me` with a successful environment. -/
theorem consume_idempotent_one_slot_witness :
    consumeProducer
        (consumeProducer
          { selfId := "me", deviceReady := true, myUserIndex := 0, consumers := [],
            consumerTransports := [], presentations := [], userStates := [],
            renderSlots := [], pendingProducers := [], pendingPresentations := [] }
          ⟨some "t1", true, true⟩
          ⟨"p2", "B", "video", "screen", "Bob", 1, some 0, true⟩ true)
        ⟨some "t2", true, true⟩
        ⟨"p2", "B", "video", "screen", "Bob", 1, some 0, true⟩ true =
      consumeProducer
        { selfId := "me", deviceReady := true, myUserIndex := 0, consumers := [],
          consumerTransports := [], presentations := [], userStates := [],
          renderSlots := [], pendingProducers := [], pendingPresentations := [] }
        ⟨some "t1", true, true⟩
        ⟨"p2", "B", "video", "screen", "Bob", 1, some 0, true⟩ true ∧
    ((consumeProducer
        { selfId := "me", deviceReady := true, myUserIndex := 0, consumers := [],
          consumerTransports := [], presentations := [], userStates := [],
          renderSlots := [], pendingProducers := [], pendingPresentations := [] }
        ⟨some "t1", true, true⟩
        ⟨"p2", "B", "video", "screen", "Bob", 1, some 0, true⟩ true).consumers.filter
          (fun kv => kv.1 = "p2")).length = 1 ∧
    (consumeProducer
        { selfId := "me", deviceReady := true, myUserIndex := 0, consumers := [],
          consumerTransports := [], presentations := [], userStates := [],
          renderSlots := [], pendingProducers := [], pendingPresentations := [] }
        ⟨some "t1", true, true⟩
        ⟨"p2", "B", "video", "screen", "Bob", 1, some 0, true⟩ true).renderSlots.count
          (semanticId ⟨"p2", "B", "video", "screen", "Bob", 1, some 0, true⟩ true) = 1 := by
  exact consume_idempotent_one_slot _ _ ⟨some "t2", true, true⟩ _ true "t1"
    (by simp) (by rfl) (by rfl) (by rfl) (by rfl) (by simp [semanticId])

/-- A pristine just-joined client `me` with empty maps and grid. -/
def clientFresh : ClientState :=
  { selfId := "me", deviceReady := true, myUserIndex := 0, consumers := [],
    consumerTransports := [], presentations := [], userStates := [],
    renderSlots := [], pendingProducers := [], pendingPresentations := [] }

/-- C3 counterexample: consuming presentation `p2` of peer `B` on the
fresh client, with the receive transport created (`t1`) but the
`/consume` request failing, is a failed `consume` — yet the state is not
as if the call had not happened: the `consumerTransports` map keeps the
`t1` entry (it is registered before the `/consume` fetch and the catch
block removes nothing). -/
theorem consume_failure_keeps_transport_entry :
    (consumeProducer clientFresh ⟨some "t1", false, true⟩
        ⟨"p2", "B", "video", "screen", "Bob", 1, some 0, true⟩ true).consumers =
      clientFresh.consumers ∧
    (consumeProducer clientFresh ⟨some "t1", false, true⟩
        ⟨"p2", "B", "video", "screen", "Bob", 1, some 0, true⟩ true).consumerTransports ≠
      clientFresh.consumerTransports := by
  decide

/-- C3 (amended): when any step of `consumeProducer` fails — transport
creation, the `/consume` request, or attaching the consumer (which
covers the transport connect handshake) — no render slot and no
`consumers`, `presentations` or `userStates` entry is left: those are as
if the call had not happened.  The `consumerTransports` map, however, is
not rolled back: it either is unchanged (failure before transport
registration) or keeps the newly registered receive transport. -/
theorem consume_failure_no_partial_bookkeeping (st : ClientState) (env : ConsumeEnv)
    (data : ProducerInfo) (b : Bool)
    (hfail : env.createTransportResult = none ∨ env.consumeOk = false ∨
      env.transportConsumeOk = false) :
    (consumeProducer st env data b).consumers = st.consumers ∧
    (consumeProducer st env data b).presentations = st.presentations ∧
    (consumeProducer st env data b).userStates = st.userStates ∧
    (consumeProducer st env data b).renderSlots = st.renderSlots ∧
    ((consumeProducer st env data b).consumerTransports = st.consumerTransports ∨
      ∃ tid, env.createTransportResult = some tid ∧
        (consumeProducer st env data b).consumerTransports =
          mapSet st.consumerTransports tid tid) := by
  by_cases hskip : data.socketId = st.selfId ∧ ¬b
  · simp [consumeProducer, hskip]
  · have hskip2 : ¬(data.socketId = st.selfId ∧ b = false) := by
      simpa using hskip
    by_cases hdup : (st.consumers.lookup data.id).isSome
    · simp [consumeProducer, hskip, hdup]
    · cases hct : env.createTransportResult with
      | none => simp [consumeProducer, hskip, hdup, hct]
      | some tid =>
        have hrest : env.consumeOk = false ∨ env.transportConsumeOk = false := by
          rcases hfail with h | h | h
          · rw [hct] at h; cases h
          · exact Or.inl h
          · exact Or.inr h
        rcases hrest with h | h
        · refine ⟨?_, ?_, ?_, ?_, Or.inr ⟨tid, rfl, ?_⟩⟩ <;>
            simp [consumeProducer, hskip2, hdup, hct, h]
        · by_cases h2 : env.consumeOk = false
          · refine ⟨?_, ?_, ?_, ?_, Or.inr ⟨tid, rfl, ?_⟩⟩ <;>
              simp [consumeProducer, hskip2, hdup, hct, h2]
          · have h2' : env.consumeOk = true := by
              cases henv : env.consumeOk
              · exact absurd henv h2
              · rfl
            refine ⟨?_, ?_, ?_, ?_, Or.inr ⟨tid, rfl, ?_⟩⟩ <;>
              simp [consumeProducer, hskip2, hdup, hct, h2', h]

/-- Witness for C3 (amended): concrete instance where the `/consume`
request fails after transport `t1` was created. -/
theorem consume_failure_no_partial_bookkeeping_witness :
    (consumeProducer clientFresh ⟨some "t1", false, true⟩
        ⟨"p3", "B", "video", "screen", "Bob", 1, some 0, true⟩ true).consumers =
      clientFresh.consumers ∧
    (consumeProducer clientFresh ⟨some "t1", false, true⟩
        ⟨"p3", "B", "video", "screen", "Bob", 1, some 0, true⟩ true).presentations =
      clientFresh.presentations ∧
    (consumeProducer clientFresh ⟨some "t1", false, true⟩
        ⟨"p3", "B", "video", "screen", "Bob", 1, some 0, true⟩ true).userStates =
      clientFresh.userStates ∧
    (consumeProducer clientFresh ⟨some "t1", false, true⟩
        ⟨"p3", "B", "video", "screen", "Bob", 1, some 0, true⟩ true).renderSlots =
      clientFresh.renderSlots ∧
    ((consumeProducer clientFresh ⟨some "t1", false, true⟩
        ⟨"p3", "B", "video", "screen", "Bob", 1, some 0, true⟩ true).consumerTransports =
      clientFresh.consumerTransports ∨
      ∃ tid, (⟨some "t1", false, true⟩ : ConsumeEnv).createTransportResult = some tid ∧
        (consumeProducer clientFresh ⟨some "t1", false, true⟩
          ⟨"p3", "B", "video", "screen", "Bob", 1, some 0, true⟩ true).consumerTransports =
            mapSet clientFresh.consumerTransports tid tid) := by
  exact consume_failure_no_partial_bookkeeping clientFresh ⟨some "t1", false, true⟩
    ⟨"p3", "B", "video", "screen", "Bob", 1, some 0, true⟩ true (Or.inr (Or.inl rfl))

/-- helper: creating the presentation render slot touches no map. -/
theorem createPresentationElement_consumers (s : ClientState) (pid : String) :
    (createPresentationElement s pid).consumers = s.consumers := by
  unfold createPresentationElement
  split <;> rfl

/-- C5: screen producer registrations broadcast `new-presentation` to
all participants including the owner, while camera registrations
broadcast `new-producer` to all except the owner; and on the client,
`consumeProducer` skips a self-owned camera/microphone resource but does
not skip a self-owned presentation (it records its consumer entry). -/
theorem produce_broadcast_scope_and_self_skip (st : RoomState)
    (transportId kind socketId newProducerId : String) (i : Nat) (restPool : List Nat)
    (cst : ClientState) (env : ConsumeEnv) (data : ProducerInfo) (tid : String)
    (ht : (st.transports.lookup transportId).isSome) :
    (getScreenShareCount st < st.maxScreenShares →
      st.availablePresentationIndexes = i :: restPool →
      newProducerId ∉ st.screenProducers →
      (handleProduce st transportId kind socketId "screen" newProducerId).2.2 =
        ProduceResult.ok newProducerId ∧
      (handleProduce st transportId kind socketId "screen" newProducerId).2.1 =
        [(Recipients.all, Payload.newPresentation newProducerId socketId kind
            (match getUserBySocketId st socketId with
             | some u => u.name
             | none => "Unknown") i),
         (Recipients.all, Payload.roomStatus st.users.length st.maxUsers
            (st.screenProducers.length + 1))]) ∧
    (socketId ≠ "" →
      (handleProduce st transportId kind socketId "camera" newProducerId).2.2 =
        ProduceResult.ok newProducerId ∧
      (handleProduce st transportId kind socketId "camera" newProducerId).2.1 =
        [(Recipients.exceptOne socketId,
          Payload.newProducer newProducerId socketId kind "camera"
            (match getUserBySocketId st socketId with
             | some u => u.name
             | none => "Unknown")
            (match getUserBySocketId st socketId with
             | some u => u.userIndex
             | none => 0))]) ∧
    (data.socketId = cst.selfId →
      cst.consumers.lookup data.id = none →
      env.createTransportResult = some tid →
      env.consumeOk = true →
      env.transportConsumeOk = true →
      (consumeProducer cst env data true).consumers.lookup data.id =
        some ⟨data.socketId, data.kind, true⟩) ∧
    (data.socketId = cst.selfId →
      consumeProducer cst env data false = cst) := by
  cases hl : st.transports.lookup transportId with
  | none => simp [hl] at ht
  | some td =>
    refine ⟨?_, ?_, ?_, ?_⟩
    · intro hcnt hpool hfreshSP
      have hcnt' : ¬ st.maxScreenShares ≤ st.screenProducers.length := by
        simp only [getScreenShareCount] at hcnt
        omega
      constructor <;>
        simp [handleProduce, hl, hcnt', hpool, getNextIndex, hfreshSP,
          getScreenShareCount]
    · intro hsid
      constructor <;> simp [handleProduce, hl, hsid]
    · intro hself hdup hct hok1 hok2
      simp [consumeProducer, hct, hok1, hok2, hdup,
        createPresentationElement_consumers,
        mapSet_of_lookup_none (⟨data.socketId, data.kind, true⟩ : ConsumerEntry) hdup,
        lookup_append_single cst.consumers data.id
          (⟨data.socketId, data.kind, true⟩ : ConsumerEntry) hdup]
    · intro hself
      simp [consumeProducer, hself]

/-- Witness for C5: in `roomOneScreenShare` (one free presentation slot,
index 1), a screen production by `A` over transport `t1` broadcasts
`new-presentation` to all and a camera production broadcasts
`new-producer` to all but `A`; client `me` does not skip its own
presentation `pz` but skips its own camera producer. -/
theorem produce_broadcast_scope_and_self_skip_witness :
    ((handleProduce roomOneScreenShare "t1" "video" "A" "screen" "p9").2.2 =
        ProduceResult.ok "p9" ∧
      (handleProduce roomOneScreenShare "t1" "video" "A" "screen" "p9").2.1 =
        [(Recipients.all, Payload.newPresentation "p9" "A" "video" "Alice" 1),
         (Recipients.all, Payload.roomStatus 1 3 2)]) ∧
    ((handleProduce roomOneScreenShare "t1" "video" "A" "camera" "p9").2.2 =
        ProduceResult.ok "p9" ∧
      (handleProduce roomOneScreenShare "t1" "video" "A" "camera" "p9").2.1 =
        [(Recipients.exceptOne "A",
          Payload.newProducer "p9" "A" "video" "camera" "Alice" 0)]) ∧
    (consumeProducer clientFresh ⟨some "tz", true, true⟩
        ⟨"pz", "me", "video", "screen", "Me", 0, some 1, true⟩ true).consumers.lookup "pz" =
      some ⟨"me", "video", true⟩ ∧
    consumeProducer clientFresh ⟨some "tz", true, true⟩
      ⟨"pz", "me", "video", "camera", "Me", 0, none, false⟩ false = clientFresh := by
  have h := produce_broadcast_scope_and_self_skip roomOneScreenShare "t1" "video" "A"
    "p9" 1 [] clientFresh ⟨some "tz", true, true⟩
    ⟨"pz", "me", "video", "screen", "Me", 0, some 1, true⟩ "tz" (by decide)
  have h2 := produce_broadcast_scope_and_self_skip roomOneScreenShare "t1" "video" "A"
    "p9" 1 [] clientFresh ⟨some "tz", true, true⟩
    ⟨"pz", "me", "video", "camera", "Me", 0, none, false⟩ "tz" (by decide)
  exact ⟨h.1 (by decide) rfl (by decide),
    h.2.1 (by decide),
    h.2.2.1 rfl rfl rfl rfl rfl,
    h2.2.2.2 rfl⟩

end Shashlichka

namespace Shashlichka

/-! ## ArrangementEngine (`client.js` lines 298-494)

The swap state machine over the fields `isSwapMode`, `swapSource`,
`swapTarget` and the grid of rendered `video-wrapper` elements.  A
wrapper is modelled by its DOM id, the current text of its
`.screen-number` label, and its parent container; the flat list order is
document order, so the children of one parent are the sublist with that
parent.  Highlight classes, cursors and the instruction banner are
visual-only and outside the modelled state. -/

/-- One rendered `video-wrapper`: DOM id, current `.screen-number`
label, parent container id. -/
structure Wrapper where
  wid : String
  screen : String
  parent : String
deriving DecidableEq, Repr

/-- `this.swapSource` / `this.swapTarget` entries `{ id, screen }`. -/
structure SwapSel where
  id : String
  screen : String
deriving DecidableEq, Repr

/-- The arrangement engine's state. -/
structure ArrState where
  isSwapMode : Bool
  swapSource : Option SwapSel
  swapTarget : Option SwapSel
  dom : List Wrapper
deriving DecidableEq, Repr

/-- `findVideoContainerByScreen(screenId)`: the first wrapper whose
`.screen-number` text equals `screenId`. -/
def findVideoContainerByScreen (dom : List Wrapper) (screenId : String) : Option Wrapper :=
  dom.find? (fun w => w.screen = screenId)

/-- `cancelSwap()`: clear source, target and swap mode (the highlight /
banner / cursor clears touch only visuals). -/
def cancelSwap (st : ArrState) : ArrState :=
  { st with swapSource := none, swapTarget := none, isSwapMode := false }

/-- `completeSwap()`: same state-machine effect as `cancelSwap`. -/
def completeSwap (st : ArrState) : ArrState :=
  { st with swapSource := none, swapTarget := none, isSwapMode := false }

/-- `swapVideoContainers` (same parent): the temporary-marker dance nets
out to exchanging the two wrappers' document positions, all other
siblings untouched. -/
def swapVideoContainers (dom : List Wrapper) (c1 c2 : Wrapper) : List Wrapper :=
  dom.map (fun w => if w = c1 then c2 else if w = c2 then c1 else w)

/-- `swapCrossContainers` (different parents): detach both, then
`parent1.appendChild(container2)` and `parent2.appendChild(container1)`
— each ends last among its new parent's children. -/
def swapCrossContainers (dom : List Wrapper) (c1 c2 : Wrapper) : List Wrapper :=
  (dom.filter (fun w => w ≠ c1 ∧ w ≠ c2)) ++
    [{ c2 with parent := c1.parent }, { c1 with parent := c2.parent }]

/-- `performSwap()` (`client.js` lines 388-424): missing source or
target, or a target equal to the source, cancels; a missing container
for either label cancels; otherwise the containers are exchanged
(in-place when they share a parent, cross-parent reattachment
otherwise) and the state machine resets via `completeSwap`. -/
def performSwap (st : ArrState) : ArrState :=
  match st.swapSource, st.swapTarget with
  | some src, some tgt =>
    if src.id = tgt.id then cancelSwap st
    else
      match findVideoContainerByScreen st.dom src.screen,
          findVideoContainerByScreen st.dom tgt.screen with
      | some sourceContainer, some targetContainer =>
        let dom' :=
          if sourceContainer.parent = targetContainer.parent then
            swapVideoContainers st.dom sourceContainer targetContainer
          else swapCrossContainers st.dom sourceContainer targetContainer
        completeSwap { st with dom := dom' }
      | _, _ => cancelSwap st
  | _, _ => cancelSwap st

/-- `selectForSwap(sourceId, screenId)` (`client.js` lines 298-317):
with no source yet, record the source and enter swap mode; with a source
already selected, record the target and run `performSwap`. -/
def selectForSwap (st : ArrState) (sourceId screenId : String) : ArrState :=
  match st.swapSource with
  | none =>
    { st with swapSource := some ⟨sourceId, screenId⟩, isSwapMode := true }
  | some _ => performSwap { st with swapTarget := some ⟨sourceId, screenId⟩ }

/-- A grid with the local wrapper only. -/
def gridLocalOnly : List Wrapper := [⟨"localWrap", "scr0", "peersContainer"⟩]

/-- The engine after selecting source `local` on label `scr0` from idle. -/
def arrSourceSelected : ArrState :=
  selectForSwap ⟨false, none, none, gridLocalOnly⟩ "local" "scr0"

end Shashlichka

namespace Shashlichka

/-- C4 counterexample: from `source-selected` with source
`{id := local, screen := scr0}`, selecting the same id again does NOT
stay in `source-selected` with the source unchanged: `performSwap` runs,
hits the same-id check and calls `cancelSwap`, so the engine drops to
idle with the source cleared. -/
theorem select_same_id_leaves_source_selected_refuted :
    arrSourceSelected.swapSource = some ⟨"local", "scr0"⟩ ∧
    arrSourceSelected.isSwapMode = true ∧
    (selectForSwap arrSourceSelected "local" "scr0").swapSource = none ∧
    (selectForSwap arrSourceSelected "local" "scr0").isSwapMode = false := by
  decide

/-- C4 (amended): when a source `A` is already selected and `A`'s id is
selected again as target, the swap is rejected — no DOM mutation happens
— but the engine returns to `idle` via `cancelSwap` (source and target
cleared, swap mode off) instead of staying in `source-selected`. -/
theorem select_same_id_rejected_to_idle (st : ArrState) (A : SwapSel) (screenId : String)
    (h : st.swapSource = some A) :
    (selectForSwap st A.id screenId).swapSource = none ∧
    (selectForSwap st A.id screenId).swapTarget = none ∧
    (selectForSwap st A.id screenId).isSwapMode = false ∧
    (selectForSwap st A.id screenId).dom = st.dom := by
  simp [selectForSwap, h, performSwap, cancelSwap]

/-- Witness for C4 (amended): the concrete `source-selected` engine
state with source `{id := local, screen := scr0}`. -/
theorem select_same_id_rejected_to_idle_witness :
    (selectForSwap arrSourceSelected "local" "scr0").swapSource = none ∧
    (selectForSwap arrSourceSelected "local" "scr0").swapTarget = none ∧
    (selectForSwap arrSourceSelected "local" "scr0").isSwapMode = false ∧
    (selectForSwap arrSourceSelected "local" "scr0").dom = arrSourceSelected.dom := by
  exact select_same_id_rejected_to_idle arrSourceSelected ⟨"local", "scr0"⟩ "scr0" (by decide)

end Shashlichka


